import Mathlib

/-!
Verification of `scripts/add-icon-padding.py`: a one-file utility that adds
transparent padding around an icon image.  The script loads an image,
converts it to RGBA, computes `new_size = int(min(width, height) *
content_percent)`, resizes the content to `new_size × new_size` with a
Lanczos filter, allocates a fully transparent RGBA canvas of the original
dimensions, pastes the resized content at `offset = (width - new_size) // 2`
on both axes using the resized image's own alpha channel as the paste mask,
and saves the result as PNG.

The embedding models in-memory RGBA images as a width, a height and a total
pixel function.  Python's float `content_percent` is modelled as a rational
number; `int(...)` is truncation toward zero and `//` is floor division,
exactly as in Python.  The Pillow library calls are modelled as follows:
`Image.new` builds a constant image; `paste` with a mask uses Pillow's
per-channel `BLEND`/`MULDIV255` fixed-point blend, clipped to the source
rectangle; `resize` (an external library routine whose filter kernel is not
part of this repository) is a parameter of the pipeline, constrained where
needed by the two interface facts the claims rely on: the resized image has
the requested dimensions, and resampling a constant image with a normalized
kernel yields the same constant.  Pillow rejects a non-positive resize
target with a dimension `ValueError`; that rejection is the error branch of
the pipeline.
-/

/-- One RGBA pixel; channel values are 8-bit intensities (0..255). -/
structure RGBA where
  r : Nat
  g : Nat
  b : Nat
  a : Nat
deriving DecidableEq, Repr

/-- An in-memory RGBA raster image: dimensions plus a total pixel map.
The meaningful domain of `pixel` is `[0, width) × [0, height)`. -/
structure Image where
  width : Nat
  height : Nat
  pixel : Nat → Nat → RGBA

/-- Pillow's `MULDIV255(a, b, tmp)` fixed-point macro:
`tmp = a*b + 128; ((tmp >> 8) + tmp) >> 8`. -/
def muldiv255 (a b : Nat) : Nat :=
  let tmp := a * b + 128
  (tmp / 256 + tmp) / 256

/-- Pillow's `BLEND(mask, in1, in2)` macro used by `paste` with a mask:
`MULDIV255(in1, 255 - mask) + MULDIV255(in2, mask)`. -/
def blendChannel (d s m : Nat) : Nat :=
  muldiv255 d (255 - m) + muldiv255 s m

/-- Per-pixel blend of source `s` over destination `d` under mask value `m`,
applied to all four channels as Pillow's `paste_mask_RGBA` does. -/
def blendRGBA (d s : RGBA) (m : Nat) : RGBA :=
  ⟨blendChannel d.r s.r m, blendChannel d.g s.g m,
   blendChannel d.b s.b m, blendChannel d.a s.a m⟩

/-- `Image.new('RGBA', (w, h), c)`: a freshly allocated constant image. -/
def Image.new (w h : Nat) (c : RGBA) : Image :=
  ⟨w, h, fun _ _ => c⟩

/-- `dest.paste(src, (ox, oy), mask)` with an RGBA `mask`: inside the pasted
rectangle each destination pixel is blended with the corresponding source
pixel using the mask's alpha value; outside it the destination pixel is
untouched.  Offsets are integers because Python allows a negative paste
position (Pillow clips the rectangle to the destination bounds, which the
guard reproduces). -/
def Image.paste (dest src : Image) (ox oy : Int) (mask : Image) : Image :=
  ⟨dest.width, dest.height, fun x y =>
    if ox ≤ (x : Int) ∧ (x : Int) < ox + src.width ∧
       oy ≤ (y : Int) ∧ (y : Int) < oy + src.height then
      let sx := ((x : Int) - ox).toNat
      let sy := ((y : Int) - oy).toNat
      blendRGBA (dest.pixel x y) (src.pixel sx sy) ((mask.pixel sx sy).a)
    else
      dest.pixel x y⟩

/-- Python's `int(q)` on a number: truncation toward zero. -/
def intTrunc (q : ℚ) : Int :=
  if q < 0 then ⌈q⌉ else ⌊q⌋

/-- `new_size = int(min(width, height) * content_percent)` from the script. -/
def computeNewSize (width height : Nat) (content_percent : ℚ) : Int :=
  intTrunc ((min width height : Nat) * content_percent)

/-- `offset = (width - new_size) // 2` from the script (Python floor
division). -/
def computeOffset (width : Nat) (new_size : Int) : Int :=
  Int.fdiv ((width : Int) - new_size) 2

/-- The only runtime failure the pipeline itself can produce after decoding:
Pillow's dimension `ValueError` for a non-positive resize target. -/
inductive PadError where
  | dimensionError
deriving DecidableEq, Repr

/-- The core of `add_transparent_padding(input_path, output_path,
content_percent)` from `scripts/add-icon-padding.py`, from the decoded RGBA
image to the composited result that is saved.  `rz` is the library resize
routine (`img.resize((new_size, new_size), Image.LANCZOS)`); Pillow rejects
a non-positive target size, hence the error branch.  The script builds a
transparent canvas of the original dimensions and pastes the resized image
at `(offset, offset)` with the resized image itself as the mask. -/
def add_transparent_padding (rz : Image → Nat → Nat → Image)
    (img : Image) (content_percent : ℚ) : Except PadError Image :=
  let width := img.width
  let height := img.height
  let new_size := computeNewSize width height content_percent
  if 0 < new_size then
    let img_resized := rz img new_size.toNat new_size.toNat
    let result := Image.new width height ⟨0, 0, 0, 0⟩
    let offset := computeOffset width new_size
    Except.ok (Image.paste result img_resized offset offset img_resized)
  else
    Except.error PadError.dimensionError

/-- The image written to `output_path` on a successful run (the `.ok` value
of the pipeline; the default is never reached when `new_size` is positive). -/
def padOutput (rz : Image → Nat → Nat → Image)
    (img : Image) (content_percent : ℚ) : Image :=
  (add_transparent_padding rz img content_percent).toOption.getD
    (Image.new 0 0 ⟨0, 0, 0, 0⟩)

/-- Interface fact about the library resize routine: the result has exactly
the requested dimensions. -/
def resizeDims (rz : Image → Nat → Nat → Image) : Prop :=
  ∀ img w h, (rz img w h).width = w ∧ (rz img w h).height = h

/-- Interface fact about the library resize routine: resampling a constant
image yields the same constant (a normalized filter kernel, such as
Pillow's Lanczos, computes convex combinations of source pixels). -/
def resizeConst (rz : Image → Nat → Nat → Image) : Prop :=
  ∀ img w h c, (∀ x y, img.pixel x y = c) → ∀ x y, (rz img w h).pixel x y = c

/-- A concrete resize routine (nearest-neighbour sampling) used to witness
the interface facts at concrete inputs. -/
def nearestResize (img : Image) (w h : Nat) : Image :=
  ⟨w, h, fun x y => img.pixel (x * img.width / w) (y * img.height / h)⟩

/-- Observable events of one run of the script, in program order. -/
inductive Event where
  | printUsage
  | exitCode (n : Nat)
  | floatError (s : String)
  | openInput (p : String)
  | decodeError
  | dimensionError
  | saveOutput (p : String)
deriving DecidableEq, Repr

/-- The `__main__` block of the script as an event trace.  `sys.argv`
includes the program name at index 0.  If `len(sys.argv) < 3` the script
prints a usage message and exits with status 1.  Otherwise it reads
`input_file = sys.argv[1]`, `output_file = sys.argv[2]`, converts
`sys.argv[3]` with `float(...)` when `len(sys.argv) > 3` (a conversion
failure raises before any file is touched; `parseFloat` models `float`),
and calls `add_transparent_padding`, which opens the input (`readImage`
models decoding; `none` is an unreadable or undecodable input, whose error
propagates), runs the pipeline, and saves the output on success.  Nothing
is caught anywhere, so each failure event ends the trace. -/
def mainTrace (parseFloat : String → Option ℚ)
    (readImage : String → Option Image)
    (rz : Image → Nat → Nat → Image)
    (argv : List String) : List Event :=
  if argv.length < 3 then
    [Event.printUsage, Event.exitCode 1]
  else
    let input_file := argv.getD 1 ""
    let output_file := argv.getD 2 ""
    match (if 3 < argv.length then parseFloat (argv.getD 3 "") else some (88 / 100)) with
    | none => [Event.floatError (argv.getD 3 "")]
    | some content =>
      Event.openInput input_file ::
      match readImage input_file with
      | none => [Event.decodeError]
      | some img =>
        match add_transparent_padding rz img content with
        | Except.error _ => [Event.dimensionError]
        | Except.ok _ => [Event.saveOutput output_file]

/-- A concrete 4×4 all-transparent test image. -/
def testImg : Image := ⟨4, 4, fun _ _ => ⟨0, 0, 0, 0⟩⟩

/-- A concrete 1024×1024 fully opaque red test image. -/
def redImg : Image := ⟨1024, 1024, fun _ _ => ⟨255, 0, 0, 255⟩⟩

/-! ## Helper lemmas -/

theorem nearestResize_dims : resizeDims nearestResize :=
  fun _ _ _ => ⟨rfl, rfl⟩

theorem nearestResize_const : resizeConst nearestResize :=
  fun _ _ _ _ hc _ _ => hc _ _

theorem paste_pixel_of_not_mem (dest src mask : Image) (ox oy : Int) (x y : Nat)
    (h : ¬(ox ≤ (x : Int) ∧ (x : Int) < ox + src.width ∧
           oy ≤ (y : Int) ∧ (y : Int) < oy + src.height)) :
    (Image.paste dest src ox oy mask).pixel x y = dest.pixel x y := by
  simp only [Image.paste]
  exact if_neg h

theorem paste_pixel_of_mem (dest src mask : Image) (ox oy : Int) (x y : Nat)
    (h : ox ≤ (x : Int) ∧ (x : Int) < ox + src.width ∧
         oy ≤ (y : Int) ∧ (y : Int) < oy + src.height) :
    (Image.paste dest src ox oy mask).pixel x y =
      blendRGBA (dest.pixel x y)
        (src.pixel ((x : Int) - ox).toNat ((y : Int) - oy).toNat)
        ((mask.pixel ((x : Int) - ox).toNat ((y : Int) - oy).toNat).a) := by
  simp only [Image.paste]
  exact if_pos h

theorem padOutput_eq (rz : Image → Nat → Nat → Image) (img : Image) (p : ℚ)
    (hpos : 0 < computeNewSize img.width img.height p) :
    padOutput rz img p =
      Image.paste (Image.new img.width img.height ⟨0, 0, 0, 0⟩)
        (rz img (computeNewSize img.width img.height p).toNat
                (computeNewSize img.width img.height p).toNat)
        (computeOffset img.width (computeNewSize img.width img.height p))
        (computeOffset img.width (computeNewSize img.width img.height p))
        (rz img (computeNewSize img.width img.height p).toNat
                (computeNewSize img.width img.height p).toNat) := by
  simp only [padOutput, add_transparent_padding]
  rw [if_pos hpos]
  rfl

theorem add_transparent_padding_ok (rz : Image → Nat → Nat → Image)
    (img : Image) (p : ℚ)
    (hpos : 0 < computeNewSize img.width img.height p) :
    add_transparent_padding rz img p = Except.ok (padOutput rz img p) := by
  simp only [padOutput, add_transparent_padding]
  rw [if_pos hpos]
  rfl

theorem fdiv_two_eq_floor (a : Int) : a.fdiv 2 = ⌊(a : ℚ) / 2⌋ := by
  rw [Int.fdiv_eq_ediv a (by norm_num)]
  have h := Rat.floor_intCast_div_natCast a 2
  rw [show (((2 : Nat) : ℚ)) = (2 : ℚ) by norm_num] at h
  rw [h]
  norm_num

theorem blendChannel_mask_zero (d s : Nat) : blendChannel d s 0 = muldiv255 d 255 := by
  simp [blendChannel, muldiv255]

theorem blendRGBA_clear_mask_zero (s : RGBA) :
    blendRGBA ⟨0, 0, 0, 0⟩ s 0 = ⟨0, 0, 0, 0⟩ := by
  simp only [blendRGBA, blendChannel_mask_zero]
  rfl

example : computeNewSize 1024 1024 (88 / 100) = 901 := by
  norm_num [computeNewSize, intTrunc]
example : computeOffset 1024 901 = 61 := by decide
example : computeNewSize 3 3 (-(1 / 2) : ℚ) = -1 := by
  norm_num [computeNewSize, intTrunc, Int.ceil_eq_iff]
example : (⌊((min (3 : Nat) 3 : Nat) : ℚ) * (-(1 / 2) : ℚ)⌋ : Int) = -2 := by
  norm_num
example : 0 < computeNewSize 4 4 (1 / 2) := by
  norm_num [computeNewSize, intTrunc]

/-! ## Claim theorems -/

/-- Claim C1: for every input image, every pixel of the output that lies
strictly outside the centered square region
`[offset, offset+new_size) × [offset, offset+new_size)` has alpha 0
(the paste leaves the freshly allocated transparent canvas untouched
there). -/
theorem C1_margin_alpha_zero (rz : Image → Nat → Nat → Image)
    (hdim : resizeDims rz) (img : Image) (p : ℚ)
    (hpos : 0 < computeNewSize img.width img.height p)
    (x y : Nat)
    (hout : ¬(computeOffset img.width (computeNewSize img.width img.height p) ≤ (x : Int) ∧
              (x : Int) < computeOffset img.width (computeNewSize img.width img.height p) +
                computeNewSize img.width img.height p ∧
              computeOffset img.width (computeNewSize img.width img.height p) ≤ (y : Int) ∧
              (y : Int) < computeOffset img.width (computeNewSize img.width img.height p) +
                computeNewSize img.width img.height p)) :
    ((padOutput rz img p).pixel x y).a = 0 := by
  rw [padOutput_eq rz img p hpos]
  rw [paste_pixel_of_not_mem]
  · rfl
  · intro hmem
    apply hout
    have hw := (hdim img (computeNewSize img.width img.height p).toNat
      (computeNewSize img.width img.height p).toNat).1
    have hh := (hdim img (computeNewSize img.width img.height p).toNat
      (computeNewSize img.width img.height p).toNat).2
    rw [hw, hh] at hmem
    rw [Int.toNat_of_nonneg hpos.le] at hmem
    exact hmem

/-- Claim C1 witness: a concrete run on a 4×4 image at percent 1/2; the
pixel (0, 0) lies outside the pasted square `[1, 3) × [1, 3)` and has
alpha 0 in the output. -/
theorem C1_margin_alpha_zero_witness :
    0 < computeNewSize testImg.width testImg.height (1 / 2) ∧
    ((padOutput nearestResize testImg (1 / 2)).pixel 0 0).a = 0 := by
  have hpos : 0 < computeNewSize testImg.width testImg.height (1 / 2) := by
    norm_num [computeNewSize, intTrunc, testImg]
  refine ⟨hpos, C1_margin_alpha_zero nearestResize nearestResize_dims testImg (1 / 2) hpos 0 0 ?_⟩
  have hns : computeNewSize testImg.width testImg.height (1 / 2) = 2 := by
    norm_num [computeNewSize, intTrunc, testImg]
  rw [hns]
  decide

/-- Claim C2: for every input image on which the pipeline succeeds, the
output image has exactly the width and the height of the input image. -/
theorem C2_dimension_preservation (rz : Image → Nat → Nat → Image)
    (img : Image) (p : ℚ)
    (hpos : 0 < computeNewSize img.width img.height p) :
    (padOutput rz img p).width = img.width ∧
    (padOutput rz img p).height = img.height := by
  rw [padOutput_eq rz img p hpos]
  exact ⟨rfl, rfl⟩

/-- Claim C2 witness: the concrete 4×4 run keeps dimensions 4×4. -/
theorem C2_dimension_preservation_witness :
    0 < computeNewSize testImg.width testImg.height (1 / 2) ∧
    (padOutput nearestResize testImg (1 / 2)).width = testImg.width ∧
    (padOutput nearestResize testImg (1 / 2)).height = testImg.height := by
  have hpos : 0 < computeNewSize testImg.width testImg.height (1 / 2) := by
    norm_num [computeNewSize, intTrunc, testImg]
  exact ⟨hpos, C2_dimension_preservation nearestResize testImg (1 / 2) hpos⟩

/-- Claim C3 counterexample: at `content_percent = -1/2` on a 3×3 image the
code computes `int(3 * (-1/2)) = -1` (Python `int` truncates toward zero),
while `floor(min(3,3) * (-1/2)) = -2`; the claim's formula fails for a
negative `content_percent`. -/
theorem C3_counterexample :
    computeNewSize 3 3 (-(1 / 2) : ℚ) ≠
      ⌊((min (3 : Nat) 3 : Nat) : ℚ) * (-(1 / 2) : ℚ)⌋ := by
  have h1 : computeNewSize 3 3 (-(1 / 2) : ℚ) = -1 := by
    norm_num [computeNewSize, intTrunc, Int.ceil_eq_iff]
  have h2 : (⌊((min (3 : Nat) 3 : Nat) : ℚ) * (-(1 / 2) : ℚ)⌋ : Int) = -2 := by
    norm_num
  rw [h1, h2]
  decide

/-- Claim C3 (amended): for every input image and every nonnegative
`content_percent`, the content size used as both target width and target
height of the resize equals `floor(min(width, height) * content_percent)`;
in general the code computes the truncation toward zero, which differs
from the floor only when the product is negative. -/
theorem C3_content_size (w h : Nat) (p : ℚ) (hp : 0 ≤ p) :
    computeNewSize w h p = ⌊((min w h : Nat) : ℚ) * p⌋ := by
  unfold computeNewSize intTrunc
  rw [if_neg (not_lt.mpr (mul_nonneg (by positivity) hp))]

/-- Claim C3 witness: at 1024×768 with percent 88/100 the amended formula
gives the value the code computes. -/
theorem C3_content_size_witness :
    (0 : ℚ) ≤ 88 / 100 ∧
    computeNewSize 1024 768 (88 / 100) = ⌊((min 1024 768 : Nat) : ℚ) * (88 / 100)⌋ := by
  refine ⟨by norm_num, C3_content_size 1024 768 (88 / 100) (by norm_num)⟩

/-- Claim C7: the transform is a deterministic pure function of its inputs:
two invocations with the same resize routine, identical decoded input image
and identical `content_percent` produce identical results (hence identical
output files). -/
theorem C7_deterministic (rz : Image → Nat → Nat → Image)
    (img1 img2 : Image) (p1 p2 : ℚ)
    (himg : img1 = img2) (hp : p1 = p2) :
    add_transparent_padding rz img1 p1 = add_transparent_padding rz img2 p2 := by
  rw [himg, hp]

/-- Claim C7 witness: two identical concrete invocations agree. -/
theorem C7_deterministic_witness :
    add_transparent_padding nearestResize testImg (1 / 2) =
      add_transparent_padding nearestResize testImg (1 / 2) :=
  C7_deterministic nearestResize testImg testImg (1 / 2) (1 / 2) rfl rfl

/-- Claim C4: the paste position offset equals
`floor((width - new_size) / 2)` computed from the image's width (not from
`min(width, height)`), and the very same offset value is used for both the
x and the y coordinate of the paste. -/
theorem C4_offset_centering (rz : Image → Nat → Nat → Image)
    (img : Image) (p : ℚ)
    (hpos : 0 < computeNewSize img.width img.height p) :
    computeOffset img.width (computeNewSize img.width img.height p) =
      ⌊((img.width : ℚ) - ((computeNewSize img.width img.height p : Int) : ℚ)) / 2⌋ ∧
    add_transparent_padding rz img p =
      Except.ok (Image.paste (Image.new img.width img.height ⟨0, 0, 0, 0⟩)
        (rz img (computeNewSize img.width img.height p).toNat
                (computeNewSize img.width img.height p).toNat)
        (computeOffset img.width (computeNewSize img.width img.height p))
        (computeOffset img.width (computeNewSize img.width img.height p))
        (rz img (computeNewSize img.width img.height p).toNat
                (computeNewSize img.width img.height p).toNat)) := by
  constructor
  · unfold computeOffset
    rw [fdiv_two_eq_floor]
    congr 1
    push_cast
    ring
  · rw [add_transparent_padding_ok rz img p hpos, padOutput_eq rz img p hpos]

/-- Claim C4 witness: the 4×4 image at percent 1/2 has offset
`(4 - 2) // 2 = 1 = floor((4 - 2) / 2)` on both axes. -/
theorem C4_offset_centering_witness :
    0 < computeNewSize testImg.width testImg.height (1 / 2) ∧
    (computeOffset testImg.width (computeNewSize testImg.width testImg.height (1 / 2)) =
      ⌊((testImg.width : ℚ) -
          ((computeNewSize testImg.width testImg.height (1 / 2) : Int) : ℚ)) / 2⌋ ∧
    add_transparent_padding nearestResize testImg (1 / 2) =
      Except.ok (Image.paste (Image.new testImg.width testImg.height ⟨0, 0, 0, 0⟩)
        (nearestResize testImg (computeNewSize testImg.width testImg.height (1 / 2)).toNat
                (computeNewSize testImg.width testImg.height (1 / 2)).toNat)
        (computeOffset testImg.width (computeNewSize testImg.width testImg.height (1 / 2)))
        (computeOffset testImg.width (computeNewSize testImg.width testImg.height (1 / 2)))
        (nearestResize testImg (computeNewSize testImg.width testImg.height (1 / 2)).toNat
                (computeNewSize testImg.width testImg.height (1 / 2)).toNat))) := by
  have hpos : 0 < computeNewSize testImg.width testImg.height (1 / 2) := by
    norm_num [computeNewSize, intTrunc, testImg]
  exact ⟨hpos, C4_offset_centering nearestResize testImg (1 / 2) hpos⟩

/-- Claim C5: the paste uses the resized image's own alpha channel as the
mask, so any pixel of the resized content that is fully transparent leaves
the corresponding canvas pixel fully transparent `(0, 0, 0, 0)`. -/
theorem C5_alpha_mask_preserved (rz : Image → Nat → Nat → Image)
    (hdim : resizeDims rz) (img : Image) (p : ℚ)
    (hpos : 0 < computeNewSize img.width img.height p)
    (sx sy x y : Nat)
    (hsx : sx < (computeNewSize img.width img.height p).toNat)
    (hsy : sy < (computeNewSize img.width img.height p).toNat)
    (halpha : ((rz img (computeNewSize img.width img.height p).toNat
                       (computeNewSize img.width img.height p).toNat).pixel sx sy).a = 0)
    (hx : (x : Int) = computeOffset img.width (computeNewSize img.width img.height p) + sx)
    (hy : (y : Int) = computeOffset img.width (computeNewSize img.width img.height p) + sy) :
    (padOutput rz img p).pixel x y = ⟨0, 0, 0, 0⟩ := by
  rw [padOutput_eq rz img p hpos]
  have hw := (hdim img (computeNewSize img.width img.height p).toNat
    (computeNewSize img.width img.height p).toNat).1
  have hh := (hdim img (computeNewSize img.width img.height p).toNat
    (computeNewSize img.width img.height p).toNat).2
  have hmem : computeOffset img.width (computeNewSize img.width img.height p) ≤ (x : Int) ∧
      (x : Int) < computeOffset img.width (computeNewSize img.width img.height p) +
        ((rz img (computeNewSize img.width img.height p).toNat
                 (computeNewSize img.width img.height p).toNat).width : Int) ∧
      computeOffset img.width (computeNewSize img.width img.height p) ≤ (y : Int) ∧
      (y : Int) < computeOffset img.width (computeNewSize img.width img.height p) +
        ((rz img (computeNewSize img.width img.height p).toNat
                 (computeNewSize img.width img.height p).toNat).height : Int) := by
    rw [hw, hh]
    refine ⟨?_, ?_, ?_, ?_⟩ <;> omega
  rw [paste_pixel_of_mem _ _ _ _ _ _ _ hmem]
  have hsx' : ((x : Int) - computeOffset img.width (computeNewSize img.width img.height p)).toNat = sx := by
    omega
  have hsy' : ((y : Int) - computeOffset img.width (computeNewSize img.width img.height p)).toNat = sy := by
    omega
  rw [hsx', hsy', halpha]
  exact blendRGBA_clear_mask_zero _

/-- Claim C5 witness: the all-transparent 4×4 image at percent 1/2 has a
fully transparent resized pixel at (0, 0), and the corresponding output
pixel (1, 1) stays `(0, 0, 0, 0)`. -/
theorem C5_alpha_mask_preserved_witness :
    0 < computeNewSize testImg.width testImg.height (1 / 2) ∧
    ((nearestResize testImg (computeNewSize testImg.width testImg.height (1 / 2)).toNat
        (computeNewSize testImg.width testImg.height (1 / 2)).toNat).pixel 0 0).a = 0 ∧
    (padOutput nearestResize testImg (1 / 2)).pixel 1 1 = ⟨0, 0, 0, 0⟩ := by
  have hns : computeNewSize testImg.width testImg.height (1 / 2) = 2 := by
    norm_num [computeNewSize, intTrunc, testImg]
  have hpos : 0 < computeNewSize testImg.width testImg.height (1 / 2) := by
    rw [hns]; decide
  have halpha : ((nearestResize testImg (computeNewSize testImg.width testImg.height (1 / 2)).toNat
      (computeNewSize testImg.width testImg.height (1 / 2)).toNat).pixel 0 0).a = 0 := by
    rw [hns]; rfl
  refine ⟨hpos, halpha,
    C5_alpha_mask_preserved nearestResize nearestResize_dims testImg (1 / 2) hpos
      0 0 1 1 ?_ ?_ halpha ?_ ?_⟩
  · rw [hns]; decide
  · rw [hns]; decide
  · rw [hns]; decide
  · rw [hns]; decide

/-- Claim C6: for a 1024×1024 fully opaque red square at the default
percent 0.88, the code computes `new_size = 901` and `offset = 61`; the
output is 1024×1024, with opaque red pixels exactly on
`[61, 962) × [61, 962)` and alpha 0 everywhere else. -/
theorem C6_red_square_example (rz : Image → Nat → Nat → Image)
    (hdim : resizeDims rz) (hconst : resizeConst rz) :
    computeNewSize 1024 1024 (88 / 100) = 901 ∧
    computeOffset 1024 (computeNewSize 1024 1024 (88 / 100)) = 61 ∧
    (padOutput rz redImg (88 / 100)).width = 1024 ∧
    (padOutput rz redImg (88 / 100)).height = 1024 ∧
    ∀ x y : Nat, x < 1024 → y < 1024 →
      ((61 ≤ x ∧ x < 962 ∧ 61 ≤ y ∧ y < 962 →
        (padOutput rz redImg (88 / 100)).pixel x y = ⟨255, 0, 0, 255⟩) ∧
       (¬(61 ≤ x ∧ x < 962 ∧ 61 ≤ y ∧ y < 962) →
        ((padOutput rz redImg (88 / 100)).pixel x y).a = 0)) := by
  have hns : computeNewSize 1024 1024 (88 / 100) = 901 := by
    norm_num [computeNewSize, intTrunc]
  have hnsr : computeNewSize redImg.width redImg.height (88 / 100) = 901 := hns
  have hpos : 0 < computeNewSize redImg.width redImg.height (88 / 100) := by
    rw [hnsr]; decide
  have hoff : computeOffset 1024 (computeNewSize 1024 1024 (88 / 100)) = 61 := by
    rw [hns]; decide
  have hout := padOutput_eq rz redImg (88 / 100) hpos
  rw [hnsr] at hout
  have htn : ((901 : Int)).toNat = 901 := rfl
  have hoffr : computeOffset redImg.width (901 : Int) = 61 := by decide
  rw [htn, hoffr] at hout
  have hw := (hdim redImg 901 901).1
  have hh := (hdim redImg 901 901).2
  have hred : ∀ a b : Nat, (rz redImg 901 901).pixel a b = ⟨255, 0, 0, 255⟩ :=
    hconst redImg 901 901 ⟨255, 0, 0, 255⟩ (fun _ _ => rfl)
  refine ⟨hns, hoff, by rw [hout]; rfl, by rw [hout]; rfl, ?_⟩
  intro x y hx hy
  constructor
  · intro hin
    have hmem : (61 : Int) ≤ (x : Int) ∧
        (x : Int) < (61 : Int) + ((rz redImg 901 901).width : Int) ∧
        (61 : Int) ≤ (y : Int) ∧
        (y : Int) < (61 : Int) + ((rz redImg 901 901).height : Int) := by
      rw [hw, hh]
      refine ⟨?_, ?_, ?_, ?_⟩ <;> omega
    rw [hout, paste_pixel_of_mem _ _ _ _ _ _ _ hmem, hred]
    show blendRGBA ⟨0, 0, 0, 0⟩ ⟨255, 0, 0, 255⟩ (RGBA.a ⟨255, 0, 0, 255⟩) =
      (⟨255, 0, 0, 255⟩ : RGBA)
    decide
  · intro hnotin
    rw [hout, paste_pixel_of_not_mem]
    · rfl
    · intro hmem
      rw [hw, hh] at hmem
      apply hnotin
      omega

/-- Claim C6 witness: the end-to-end example instantiated with the concrete
nearest-neighbour resize routine, which satisfies both interface facts. -/
theorem C6_red_square_example_witness :
    resizeDims nearestResize ∧ resizeConst nearestResize ∧
    (computeNewSize 1024 1024 (88 / 100) = 901 ∧
    computeOffset 1024 (computeNewSize 1024 1024 (88 / 100)) = 61 ∧
    (padOutput nearestResize redImg (88 / 100)).width = 1024 ∧
    (padOutput nearestResize redImg (88 / 100)).height = 1024 ∧
    ∀ x y : Nat, x < 1024 → y < 1024 →
      ((61 ≤ x ∧ x < 962 ∧ 61 ≤ y ∧ y < 962 →
        (padOutput nearestResize redImg (88 / 100)).pixel x y = ⟨255, 0, 0, 255⟩) ∧
       (¬(61 ≤ x ∧ x < 962 ∧ 61 ≤ y ∧ y < 962) →
        ((padOutput nearestResize redImg (88 / 100)).pixel x y).a = 0))) :=
  ⟨nearestResize_dims, nearestResize_const,
    C6_red_square_example nearestResize nearestResize_dims nearestResize_const⟩

/-- Claim C8: invoked with fewer than two positional arguments
(`len(sys.argv) < 3`), the script prints the usage message and exits with
status 1 (non-zero); no input file is opened and no output file is
written. -/
theorem C8_usage_error (parseFloat : String → Option ℚ)
    (readImage : String → Option Image) (rz : Image → Nat → Nat → Image)
    (argv : List String) (h : argv.length < 3) :
    mainTrace parseFloat readImage rz argv = [Event.printUsage, Event.exitCode 1] ∧
    (1 : Nat) ≠ 0 ∧
    (∀ s, Event.saveOutput s ∉ mainTrace parseFloat readImage rz argv) ∧
    (∀ s, Event.openInput s ∉ mainTrace parseFloat readImage rz argv) := by
  have ht : mainTrace parseFloat readImage rz argv = [Event.printUsage, Event.exitCode 1] := by
    unfold mainTrace
    rw [if_pos h]
  refine ⟨ht, by decide, ?_, ?_⟩ <;> intro s <;> rw [ht] <;> simp

/-- Claim C8 witness: one positional argument (`argv` of length 2). -/
theorem C8_usage_error_witness :
    (["add-icon-padding.py", "icon.png"] : List String).length < 3 ∧
    (mainTrace (fun _ => none) (fun _ => none) nearestResize
        ["add-icon-padding.py", "icon.png"] = [Event.printUsage, Event.exitCode 1] ∧
    (1 : Nat) ≠ 0 ∧
    (∀ s, Event.saveOutput s ∉ mainTrace (fun _ => none) (fun _ => none) nearestResize
        ["add-icon-padding.py", "icon.png"]) ∧
    (∀ s, Event.openInput s ∉ mainTrace (fun _ => none) (fun _ => none) nearestResize
        ["add-icon-padding.py", "icon.png"])) :=
  ⟨by decide,
    C8_usage_error (fun _ => none) (fun _ => none) nearestResize
      ["add-icon-padding.py", "icon.png"] (by decide)⟩

/-- Claim C9: whenever the computed `new_size` is non-positive (a
degenerate `content_percent`), the resize step fails with the library's
dimension error instead of succeeding, and the failure propagates uncaught:
a full run ends on the dimension error, with no output saved. -/
theorem C9_nonpositive_size_error (rz : Image → Nat → Nat → Image)
    (img : Image) (p : ℚ)
    (h : computeNewSize img.width img.height p ≤ 0) :
    add_transparent_padding rz img p = Except.error PadError.dimensionError ∧
    ∀ (parseFloat : String → Option ℚ) (readImage : String → Option Image)
      (argv : List String),
      ¬ argv.length < 3 →
      (if 3 < argv.length then parseFloat (argv.getD 3 "") else some (88 / 100)) = some p →
      readImage (argv.getD 1 "") = some img →
      mainTrace parseFloat readImage rz argv =
        [Event.openInput (argv.getD 1 ""), Event.dimensionError] := by
  have herr : add_transparent_padding rz img p = Except.error PadError.dimensionError := by
    unfold add_transparent_padding
    rw [if_neg (not_lt.mpr h)]
  refine ⟨herr, ?_⟩
  intro parseFloat readImage argv hlen hparse hread
  simp only [mainTrace, if_neg hlen, hparse, hread, herr]

/-- Claim C9 witness: `content_percent = 0` on the 4×4 image gives
`new_size = 0`; the pipeline fails with the dimension error and a full run
ends on it with no output saved. -/
theorem C9_nonpositive_size_error_witness :
    computeNewSize testImg.width testImg.height 0 ≤ 0 ∧
    add_transparent_padding nearestResize testImg 0 = Except.error PadError.dimensionError ∧
    mainTrace (fun _ => some 0) (fun _ => some testImg) nearestResize
        ["add-icon-padding.py", "icon.png", "out.png", "0"] =
      [Event.openInput "icon.png", Event.dimensionError] := by
  have h : computeNewSize testImg.width testImg.height 0 ≤ 0 := by
    norm_num [computeNewSize, intTrunc, testImg]
  have hmain := C9_nonpositive_size_error nearestResize testImg 0 h
  exact ⟨h, hmain.1,
    hmain.2 (fun _ => some 0) (fun _ => some testImg)
      ["add-icon-padding.py", "icon.png", "out.png", "0"] (by decide) rfl rfl⟩

/-- Claim C10: a third positional argument that `float(...)` cannot parse
makes the conversion raise; the run terminates with only that failure
event, before the input file is opened and before any output is written. -/
theorem C10_float_parse_error (parseFloat : String → Option ℚ)
    (readImage : String → Option Image) (rz : Image → Nat → Nat → Image)
    (argv : List String)
    (hlen : 3 < argv.length)
    (hparse : parseFloat (argv.getD 3 "") = none) :
    mainTrace parseFloat readImage rz argv = [Event.floatError (argv.getD 3 "")] ∧
    (∀ s, Event.openInput s ∉ mainTrace parseFloat readImage rz argv) ∧
    (∀ s, Event.saveOutput s ∉ mainTrace parseFloat readImage rz argv) := by
  have hlen' : ¬ argv.length < 3 := by omega
  have ht : mainTrace parseFloat readImage rz argv = [Event.floatError (argv.getD 3 "")] := by
    simp only [mainTrace, if_neg hlen', if_pos hlen, hparse]
  refine ⟨ht, ?_, ?_⟩ <;> intro s <;> rw [ht] <;> simp

/-- Claim C10 witness: `"abc"` as the third positional argument with a
parse model that rejects it. -/
theorem C10_float_parse_error_witness :
    3 < (["add-icon-padding.py", "icon.png", "out.png", "abc"] : List String).length ∧
    ((fun _ => (none : Option ℚ)) (List.getD ["add-icon-padding.py", "icon.png", "out.png", "abc"] 3 "") = none) ∧
    (mainTrace (fun _ => none) (fun _ => some testImg) nearestResize
        ["add-icon-padding.py", "icon.png", "out.png", "abc"] =
      [Event.floatError (List.getD ["add-icon-padding.py", "icon.png", "out.png", "abc"] 3 "")] ∧
    (∀ s, Event.openInput s ∉ mainTrace (fun _ => none) (fun _ => some testImg) nearestResize
        ["add-icon-padding.py", "icon.png", "out.png", "abc"]) ∧
    (∀ s, Event.saveOutput s ∉ mainTrace (fun _ => none) (fun _ => some testImg) nearestResize
        ["add-icon-padding.py", "icon.png", "out.png", "abc"])) :=
  ⟨by decide, rfl,
    C10_float_parse_error (fun _ => none) (fun _ => some testImg) nearestResize
      ["add-icon-padding.py", "icon.png", "out.png", "abc"] (by decide) rfl⟩
